import Mathlib

/-!
Shallow embedding of the Nightscout LibreLink Up uploader
(`src/index.ts`): session-cache state machine, connection resolution,
dedup/format stage and the main poll-then-upload pipeline. Network
responses are supplied as oracle inputs; module-level mutable state
(`authTicket`, `userId`) is passed explicitly as a `SessionState`.
Timestamps are epoch values, modelled as `Nat`.
-/

namespace NSLLU

/-- The upstream authentication ticket (`AuthTicket` in
`interfaces/librelink/common`): `duration`, `expires`, `token`.
`expires` is `Option Nat` because `hasValidAuthentication` guards
against an undefined expiry. -/
structure AuthTicket where
  duration : Nat
  expires : Option Nat
  token : String
  deriving DecidableEq, Repr

/-- The module-level mutable session cache of `index.ts`:
`let authTicket : AuthTicket` and `let userId : string`. -/
structure SessionState where
  authTicket : AuthTicket
  userId : String
  deriving DecidableEq, Repr

/-- A caregiver/patient connection as returned by the connections
endpoint (`Connection` in `interfaces/librelink/common`); only the
fields the code reads. -/
structure Connection where
  patientId : String
  firstName : String
  lastName : String
  deriving DecidableEq, Repr

/-- The current glucose measurement
(`measurementData.connection.glucoseMeasurement`). `FactoryTimestamp`
is modelled directly as an epoch value. -/
structure GlucoseMeasurement where
  FactoryTimestamp : Nat
  TrendArrow : Nat
  ValueInMgPerDl : Nat
  deriving DecidableEq, Repr

/-- A historical graph point (`GlucoseItem`). -/
structure GlucoseItem where
  FactoryTimestamp : Nat
  ValueInMgPerDl : Nat
  deriving DecidableEq, Repr

/-- The `connection` object inside `GraphData`; the code only reads
its `glucoseMeasurement` field. -/
structure GraphConnection where
  glucoseMeasurement : GlucoseMeasurement
  deriving DecidableEq, Repr

/-- `GraphData` from `interfaces/librelink/graph-response`: the current
measurement plus the historical window. -/
structure GraphData where
  connection : GraphConnection
  graphData : List GlucoseItem
  deriving DecidableEq, Repr

/-- A downstream Nightscout entry (`Entry` in `nightscout/interface`):
the code constructs `{date, direction?, sgv}` and reads `date` of the
last stored entry. -/
structure Entry where
  date : Nat
  sgv : Nat
  direction : Option String
  deriving DecidableEq, Repr

/-- The configuration fields the embedded pipeline reads
(`config.allData`, `config.linkUpConnection`). `linkUpConnection` is
`Option String` since the environment variable may be unset. -/
structure Config where
  allData : Bool
  linkUpConnection : Option String
  deriving DecidableEq, Repr

/-- Modelled from the spec: `getUtcDateFromString` (in
`helpers/helpers`, not included under src/) converts the upstream
`FactoryTimestamp` into a UTC epoch timestamp; with timestamps already
modelled as epoch values it is the identity. -/
def getUtcDateFromString (s : Nat) : Nat := s

/-- Modelled from the spec: `mapTrendArrow` (in `helpers/helpers`, not
included under src/) maps the upstream numeric trend arrow of the
current reading to the downstream trend-direction string. -/
def mapTrendArrow (trendArrow : Nat) : String :=
  match trendArrow with
  | 1 => "SingleDown"
  | 2 => "FortyFiveDown"
  | 3 => "Flat"
  | 4 => "FortyFiveUp"
  | 5 => "SingleUp"
  | _ => "NOT COMPUTABLE"

/-- The guard `lastEntry === null || entryDate > lastEntry.date` used
by `createFormattedMeasurements` for both the current measurement and
each graph point. -/
def newerThan : Option Entry → Nat → Bool
  | none, _ => true
  | some lastEntry, d => lastEntry.date < d

/-- The entry pushed for the current glucose measurement:
`{date, direction: mapTrendArrow(TrendArrow), sgv}`. -/
def formatCurrent (g : GlucoseMeasurement) : Entry :=
  { date := getUtcDateFromString g.FactoryTimestamp
    sgv := g.ValueInMgPerDl
    direction := some (mapTrendArrow g.TrendArrow) }

/-- The entry pushed for a historical graph point: `{date, sgv}`, no
trend direction. -/
def formatHist (i : GlucoseItem) : Entry :=
  { date := getUtcDateFromString i.FactoryTimestamp
    sgv := i.ValueInMgPerDl
    direction := none }

/-- `createFormattedMeasurements` (index.ts lines 238-263). The
watermark is `config.allData ? null : await nightscoutClient.lastEntry()`;
`allData` and the client's `lastEntry()` result are explicit inputs.
The current measurement is pushed first when strictly newer than the
watermark (or the watermark is absent), then each graph point passing
the same test, in order. -/
def createFormattedMeasurements (allData : Bool) (nsLastEntry : Option Entry)
    (measurementData : GraphData) : List Entry :=
  let glucoseMeasurement := measurementData.connection.glucoseMeasurement
  let measurementDate := getUtcDateFromString glucoseMeasurement.FactoryTimestamp
  let lastEntry : Option Entry := if allData then none else nsLastEntry
  (if newerThan lastEntry measurementDate then [formatCurrent glucoseMeasurement] else [])
    ++ measurementData.graphData.filterMap (fun entry =>
        if newerThan lastEntry (getUtcDateFromString entry.FactoryTimestamp) then
          some (formatHist entry)
        else none)

/-- The `user` object of the login response; the code reads `user.id`. -/
structure LoginUser where
  id : String
  deriving DecidableEq, Repr

/-- The `data` object of the login response (`LoginResponse` in
`interfaces/librelink/login-response`): optional region redirect, the
user, and the auth ticket. -/
structure LoginData where
  redirect : Option Bool
  region : Option String
  user : LoginUser
  authTicket : AuthTicket
  deriving DecidableEq, Repr

/-- The login response: `status` plus `data`. -/
structure LoginResponse where
  status : Nat
  data : LoginData
  deriving DecidableEq, Repr

/-- One API call of a cycle, recorded in order: the upstream login,
connections and graph requests, and the downstream `lastEntry` /
`uploadEntries` calls. -/
inductive ApiCall where
  | loginCall : ApiCall
  | connectionsCall : ApiCall
  | graphCall : ApiCall
  | lastEntryCall : ApiCall
  | uploadCall : List Entry → ApiCall
  deriving DecidableEq, Repr

/-- The network responses one cycle receives: `Except.error` stands
for a request that throws (network/API error). -/
structure Oracles where
  loginResponse : Except Unit LoginResponse
  connectionsResponse : Except Unit (List Connection)
  graphResponse : Except Unit GraphData
  nsLastEntry : Option Entry
  uploadResult : Except Unit Unit
  deriving Repr

/-- `deleteAuthTicket` (index.ts line 313): resets the ticket to
`{duration: 0, expires: 0, token: ""}`. -/
def deleteAuthTicket (s : SessionState) : SessionState :=
  { s with authTicket := { duration := 0, expires := some 0, token := "" } }

/-- `updateAuthTicket`: stores a newly received ticket. -/
def updateAuthTicket (s : SessionState) (newAuthTicket : AuthTicket) : SessionState :=
  { s with authTicket := newAuthTicket }

/-- `deleteAccountId`: resets `userId` to the empty string. -/
def deleteAccountId (s : SessionState) : SessionState :=
  { s with userId := "" }

/-- `updateAccountId`: stores the logged-in user id. -/
def updateAccountId (s : SessionState) (newUserId : String) : SessionState :=
  { s with userId := newUserId }

/-- The fully cleared session cache: empty token, expiry 0, empty
account id — the state after `deleteAuthTicket(); deleteAccountId()`. -/
def clearedState : SessionState :=
  { authTicket := { duration := 0, expires := some 0, token := "" }, userId := "" }

/-- `hasValidAuthentication` (index.ts lines 341-348): when
`authTicket.expires` is defined, true iff
`Math.floor(Date.now() / 1000) < authTicket.expires`; false when the
expiry is undefined. `nowMs` is the current time in milliseconds. -/
def hasValidAuthentication (t : AuthTicket) (nowMs : Nat) : Bool :=
  match t.expires with
  | some e => nowMs / 1000 < e
  | none => false

/-- JavaScript truthiness of `config.linkUpConnection`: falsy when the
variable is unset or the empty string. -/
def optFalsy : Option String → Bool
  | none => true
  | some s => s.isEmpty

/-- The connection-selection policy of `getLibreLinkUpConnection`
(index.ts lines 196-225), after the connections request succeeded:
empty list fails; a single connection is auto-selected; with several
connections the first is used when `LINK_UP_CONNECTION` is falsy,
otherwise the exact `patientId` match is used or selection fails. -/
def selectConnection (connectionData : List Connection)
    (linkUpConnection : Option String) : Option String :=
  match connectionData with
  | [] => none
  | [c] => some c.patientId
  | c :: _ :: _ =>
    if optFalsy linkUpConnection then some c.patientId
    else
      match connectionData.find? (fun entry => some entry.patientId == linkUpConnection) with
      | some connection => some connection.patientId
      | none => none

/-- `login` (index.ts lines 117-154). A thrown request returns `none`
and leaves the state alone (the catch only logs). A non-zero `status`,
or `redirect === true` with a truthy `region`, returns `none` without
touching the state. Otherwise the user id is cached via
`updateAccountId` and the ticket is returned. -/
def login (s : SessionState) (resp : Except Unit LoginResponse) :
    SessionState × Option AuthTicket :=
  match resp with
  | .error _ => (s, none)
  | .ok r =>
    if r.status ≠ 0 then (s, none)
    else if r.data.redirect == some true && !(r.data.region.getD "").isEmpty then (s, none)
    else (updateAccountId s r.data.user.id, some r.data.authTicket)

/-- `getLibreLinkUpConnection` (index.ts lines 182-232) as a state
transformer: a thrown connections request hits the catch block, which
clears the session cache; a successful response applies the pure
selection policy and leaves the state unchanged (the null-returning
branches do not clear the cache). -/
def getLibreLinkUpConnection (linkUpConnection : Option String)
    (connectionsResponse : Except Unit (List Connection)) (s : SessionState) :
    SessionState × List ApiCall × Option String :=
  match connectionsResponse with
  | .error _ => (deleteAccountId (deleteAuthTicket s), [ApiCall.connectionsCall], none)
  | .ok connectionData =>
    (s, [ApiCall.connectionsCall], selectConnection connectionData linkUpConnection)

/-- `getGlucoseMeasurements` (index.ts lines 156-180): resolve the
connection; a `null` connection id returns `null` without the graph
request; a thrown graph request hits the catch block, which clears the
session cache. -/
def getGlucoseMeasurements (linkUpConnection : Option String)
    (connectionsResponse : Except Unit (List Connection))
    (graphResponse : Except Unit GraphData) (s : SessionState) :
    SessionState × List ApiCall × Option GraphData :=
  match getLibreLinkUpConnection linkUpConnection connectionsResponse s with
  | (s1, calls1, none) => (s1, calls1, none)
  | (s1, calls1, some _) =>
    match graphResponse with
    | .error _ =>
      (deleteAccountId (deleteAuthTicket s1), calls1 ++ [ApiCall.graphCall], none)
    | .ok gd => (s1, calls1 ++ [ApiCall.graphCall], some gd)

/-- The upload-call payloads in a cycle's call list. -/
def uploadCallsOf (calls : List ApiCall) : List (List Entry) :=
  calls.filterMap (fun c =>
    match c with
    | ApiCall.uploadCall es => some es
    | _ => none)

/-- `uploadToNightScout` (index.ts lines 265-279): format the
measurements (fetching the downstream watermark unless `allData`), then
either a single batched `uploadEntries` call when the list is
non-empty, or no upload call at all. The returned `Bool` is whether the
upload (if any) succeeded; a failed upload is only logged. -/
def uploadToNightScout (allData : Bool) (nsLastEntry : Option Entry)
    (uploadResult : Except Unit Unit) (measurementData : GraphData) :
    List ApiCall × Bool :=
  let formattedMeasurements := createFormattedMeasurements allData nsLastEntry measurementData
  let lastEntryCalls := if allData then [] else [ApiCall.lastEntryCall]
  if formattedMeasurements.length > 0 then
    (lastEntryCalls ++ [ApiCall.uploadCall formattedMeasurements],
     match uploadResult with
     | .ok _ => true
     | .error _ => false)
  else (lastEntryCalls, true)

/-- `main` (index.ts lines 93-115) as one cycle: when the cached ticket
is invalid, clear the cache and log in (a failed login leaves the cache
cleared and ends the cycle); then fetch measurements (a `null` result
ends the cycle); then upload. Returns the final session state and the
ordered list of API calls made. -/
def mainStep (cfg : Config) (nowMs : Nat) (o : Oracles) (s : SessionState) :
    SessionState × List ApiCall :=
  let auth : SessionState × List ApiCall × Bool :=
    if hasValidAuthentication s.authTicket nowMs then (s, [], true)
    else
      match login (deleteAccountId (deleteAuthTicket s)) o.loginResponse with
      | (s1, some newAuthTicket) =>
        (updateAuthTicket s1 newAuthTicket, [ApiCall.loginCall], true)
      | (s1, none) =>
        (deleteAccountId (deleteAuthTicket s1), [ApiCall.loginCall], false)
  match auth with
  | (s1, calls1, false) => (s1, calls1)
  | (s1, calls1, true) =>
    match getGlucoseMeasurements cfg.linkUpConnection o.connectionsResponse
        o.graphResponse s1 with
    | (s2, calls2, none) => (s2, calls1 ++ calls2)
    | (s2, calls2, some glucoseGraphData) =>
      (s2, calls1 ++ calls2
        ++ (uploadToNightScout cfg.allData o.nsLastEntry o.uploadResult
              glucoseGraphData).1)

/-- `List.filterMap` with a function that always returns `some` is a
`List.map`. -/
theorem filterMap_always_some {α β : Type} (f : α → β) (l : List α) :
    l.filterMap (fun a => some (f a)) = l.map f := by
  induction l with
  | nil => rfl
  | cons a l ih => simp [List.filterMap_cons, ih]

/-- Claim C1: with a watermark (last stored entry) of timestamp W, a
fetched reading (the current measurement or any graph point) appears in
the output of `createFormattedMeasurements` iff its timestamp T
satisfies T > W; equal timestamps are excluded. In particular with
watermark 100 and reading timestamps 90, 100, 150, only the reading at
150 is emitted. -/
theorem c1_watermark_strict_filter :
    (∀ (gd : GraphData) (lastStored : Entry) (x : Entry),
      x ∈ createFormattedMeasurements false (some lastStored) gd ↔
        ((x = formatCurrent gd.connection.glucoseMeasurement ∧
            lastStored.date <
              getUtcDateFromString gd.connection.glucoseMeasurement.FactoryTimestamp)
          ∨ ∃ i ∈ gd.graphData, x = formatHist i ∧
              lastStored.date < getUtcDateFromString i.FactoryTimestamp))
    ∧ createFormattedMeasurements false (some ⟨100, 0, none⟩)
        ⟨⟨⟨90, 3, 101⟩⟩, [⟨100, 102⟩, ⟨150, 103⟩]⟩
      = [⟨150, 103, none⟩] := by
  refine ⟨?_, rfl⟩
  intro gd lastStored x
  simp only [createFormattedMeasurements, newerThan, Bool.false_eq_true, if_false,
    List.mem_append, List.mem_filterMap]
  constructor
  · rintro (h1 | ⟨a, ha, hfa⟩)
    · left
      by_cases hc : lastStored.date <
          getUtcDateFromString gd.connection.glucoseMeasurement.FactoryTimestamp
      · simp [hc] at h1
        exact ⟨h1, hc⟩
      · simp [hc] at h1
    · right
      by_cases hc : lastStored.date < getUtcDateFromString a.FactoryTimestamp
      · simp [hc] at hfa
        exact ⟨a, ha, hfa.symm, hc⟩
      · simp [hc] at hfa
  · rintro (⟨hx, hc⟩ | ⟨a, ha, hx, hc⟩)
    · left
      simp [hc, hx]
    · right
      exact ⟨a, ha, by simp [hc, hx]⟩

/-- Witness for C1 at the spec's example: the reading at 150 is in the
output because 150 exceeds the watermark 100. -/
theorem c1_watermark_strict_filter_witness :
    (⟨150, 103, none⟩ : Entry) ∈ createFormattedMeasurements false (some ⟨100, 0, none⟩)
        ⟨⟨⟨90, 3, 101⟩⟩, [⟨100, 102⟩, ⟨150, 103⟩]⟩ ↔
      (((⟨150, 103, none⟩ : Entry) = formatCurrent ⟨90, 3, 101⟩ ∧ 100 < getUtcDateFromString 90)
        ∨ ∃ i ∈ ([⟨100, 102⟩, ⟨150, 103⟩] : List GlucoseItem),
            (⟨150, 103, none⟩ : Entry) = formatHist i ∧ 100 < getUtcDateFromString i.FactoryTimestamp) :=
  c1_watermark_strict_filter.1 ⟨⟨⟨90, 3, 101⟩⟩, [⟨100, 102⟩, ⟨150, 103⟩]⟩ ⟨100, 0, none⟩
    ⟨150, 103, none⟩

/-- Claim C2: when the watermark is absent (all-data mode, or a null
last entry), every fetched reading is emitted: the current measurement
first, carrying a trend direction, then all graph points in original
order, each without a trend direction. -/
theorem c2_no_watermark_emits_all :
    ∀ (gd : GraphData) (nsLast : Option Entry),
      createFormattedMeasurements true nsLast gd
          = formatCurrent gd.connection.glucoseMeasurement :: gd.graphData.map formatHist
        ∧ createFormattedMeasurements false none gd
          = formatCurrent gd.connection.glucoseMeasurement :: gd.graphData.map formatHist
        ∧ (formatCurrent gd.connection.glucoseMeasurement).direction
            = some (mapTrendArrow gd.connection.glucoseMeasurement.TrendArrow)
        ∧ ∀ i ∈ gd.graphData, (formatHist i).direction = none := by
  intro gd nsLast
  refine ⟨?_, ?_, rfl, fun i _ => rfl⟩ <;>
    simp [createFormattedMeasurements, newerThan, filterMap_always_some]

/-- Witness for C2 at a concrete graph: all-data mode emits the
current reading first and the graph point, which carries no trend
direction. -/
theorem c2_no_watermark_emits_all_witness :
    createFormattedMeasurements true none ⟨⟨⟨90, 3, 101⟩⟩, [⟨100, 102⟩]⟩
      = formatCurrent ⟨90, 3, 101⟩ :: ([⟨100, 102⟩] : List GlucoseItem).map formatHist
    ∧ (formatHist ⟨100, 102⟩).direction = none :=
  ⟨(c2_no_watermark_emits_all ⟨⟨⟨90, 3, 101⟩⟩, [⟨100, 102⟩]⟩ none).1,
   (c2_no_watermark_emits_all ⟨⟨⟨90, 3, 101⟩⟩, [⟨100, 102⟩]⟩ none).2.2.2
     ⟨100, 102⟩ (by decide)⟩

/-- Claim C10: deduplication is only against the watermark, not among
the fetched readings: with the current measurement and a graph point
both at timestamp 150 and watermark 100, two entries with the same date
are emitted, one with a trend direction and one without. -/
theorem c10_duplicate_dates_possible :
    createFormattedMeasurements false (some ⟨100, 0, none⟩)
        ⟨⟨⟨150, 3, 101⟩⟩, [⟨150, 102⟩]⟩
      = [⟨150, 101, some "Flat"⟩, ⟨150, 102, none⟩]
    ∧ (⟨150, 101, some "Flat"⟩ : Entry).date = (⟨150, 102, none⟩ : Entry).date
    ∧ (⟨150, 101, some "Flat"⟩ : Entry).direction ≠ (⟨150, 102, none⟩ : Entry).direction := by
  exact ⟨rfl, rfl, by decide⟩

/-- Claim C9: for a ticket with a defined expiry, the validity check is
true iff the current time in whole seconds is strictly below the stored
expiry. -/
theorem c9_validity_iff_before_expiry :
    ∀ (t : AuthTicket) (nowMs e : Nat), t.expires = some e →
      (hasValidAuthentication t nowMs = true ↔ nowMs / 1000 < e) := by
  intro t nowMs e h
  simp [hasValidAuthentication, h]

/-- Witness for C9 at a concrete ticket and time. -/
theorem c9_validity_iff_before_expiry_witness :
    (⟨60, some 10, "tok"⟩ : AuthTicket).expires = some 10
    ∧ (hasValidAuthentication ⟨60, some 10, "tok"⟩ 5000 = true ↔ 5000 / 1000 < 10) :=
  ⟨rfl, c9_validity_iff_before_expiry ⟨60, some 10, "tok"⟩ 5000 10 rfl⟩

/-- Claim C6: `login` returns no ticket on a non-zero status or a
region redirect (redirect flag with a truthy region), leaving the
cached account id untouched; on success it caches the returned user id
and returns the response's auth ticket. -/
theorem c6_login_result :
    ∀ (s : SessionState) (r : LoginResponse),
      (r.status ≠ 0 → login s (Except.ok r) = (s, none))
      ∧ (r.data.redirect = some true → (r.data.region.getD "").isEmpty = false →
          login s (Except.ok r) = (s, none))
      ∧ (r.status = 0 →
          ¬(r.data.redirect = some true ∧ (r.data.region.getD "").isEmpty = false) →
          login s (Except.ok r) = (updateAccountId s r.data.user.id, some r.data.authTicket)) := by
  intro s r
  refine ⟨fun h => by simp [login, h], fun h1 h2 => ?_, fun h0 hnr => ?_⟩
  · by_cases hs : r.status = 0
    · simp [login, hs, h1, h2]
    · simp [login, hs]
  · by_cases h1 : r.data.redirect = some true
    · have h2 : (r.data.region.getD "").isEmpty = true := by
        rcases Bool.eq_false_or_eq_true ((r.data.region.getD "").isEmpty) with h | h
        · exact h
        · exact absurd ⟨h1, h⟩ hnr
      simp [login, h0, h1, h2]
    · have hb : (r.data.redirect == some true) = false := by
        simpa using h1
      simp [login, h0, hb]

/-- Witness for C6: the three branches at concrete responses (non-zero
status; region redirect; success). -/
theorem c6_login_result_witness :
    login ⟨⟨0, some 0, ""⟩, ""⟩
        (Except.ok ⟨1, ⟨none, none, ⟨"u"⟩, ⟨60, some 99, "t"⟩⟩⟩)
      = (⟨⟨0, some 0, ""⟩, ""⟩, none)
    ∧ login ⟨⟨0, some 0, ""⟩, ""⟩
        (Except.ok ⟨0, ⟨some true, some "eu", ⟨"u"⟩, ⟨60, some 99, "t"⟩⟩⟩)
      = (⟨⟨0, some 0, ""⟩, ""⟩, none)
    ∧ login ⟨⟨0, some 0, ""⟩, ""⟩
        (Except.ok ⟨0, ⟨none, none, ⟨"u"⟩, ⟨60, some 99, "t"⟩⟩⟩)
      = (updateAccountId ⟨⟨0, some 0, ""⟩, ""⟩ "u", some ⟨60, some 99, "t"⟩) :=
  ⟨(c6_login_result _ _).1 (by decide),
   (c6_login_result _ _).2.1 rfl (by decide),
   (c6_login_result _ _).2.2 rfl (by simp)⟩

/-- Claim C7: when the formatted measurement list is empty, no
`uploadEntries` call is made; when it is non-empty, exactly one upload
call is made, with the full batch. -/
theorem c7_upload_only_nonempty :
    ∀ (allData : Bool) (nsLast : Option Entry) (u : Except Unit Unit) (gd : GraphData),
      (createFormattedMeasurements allData nsLast gd = [] →
        uploadCallsOf (uploadToNightScout allData nsLast u gd).1 = [])
      ∧ (createFormattedMeasurements allData nsLast gd ≠ [] →
        uploadCallsOf (uploadToNightScout allData nsLast u gd).1
          = [createFormattedMeasurements allData nsLast gd]) := by
  intro allData nsLast u gd
  constructor
  · intro h
    cases allData <;> simp [uploadToNightScout, h, uploadCallsOf]
  · intro h
    have hlen : 0 < (createFormattedMeasurements allData nsLast gd).length :=
      List.length_pos.mpr h
    cases allData <;>
      simp [uploadToNightScout, hlen, uploadCallsOf, List.filterMap_append]

/-- Witness for C7: a stale graph (all timestamps at or below the
watermark) produces no upload call; the same graph in all-data mode
produces exactly one upload call with the full batch. -/
theorem c7_upload_only_nonempty_witness :
    uploadCallsOf (uploadToNightScout false (some ⟨1000, 0, none⟩) (Except.ok ())
        ⟨⟨⟨10, 3, 101⟩⟩, [⟨20, 102⟩]⟩).1 = []
    ∧ uploadCallsOf (uploadToNightScout true (some ⟨1000, 0, none⟩) (Except.ok ())
        ⟨⟨⟨10, 3, 101⟩⟩, [⟨20, 102⟩]⟩).1
      = [createFormattedMeasurements true (some ⟨1000, 0, none⟩)
          ⟨⟨⟨10, 3, 101⟩⟩, [⟨20, 102⟩]⟩] :=
  ⟨(c7_upload_only_nonempty false (some ⟨1000, 0, none⟩) (Except.ok ())
      ⟨⟨⟨10, 3, 101⟩⟩, [⟨20, 102⟩]⟩).1 (by decide),
   (c7_upload_only_nonempty true (some ⟨1000, 0, none⟩) (Except.ok ())
      ⟨⟨⟨10, 3, 101⟩⟩, [⟨20, 102⟩]⟩).2 (by decide)⟩

/-- Claim C8: a failed downstream upload leaves the session cache
unchanged: the final session state of a cycle does not depend on the
upload outcome. -/
theorem c8_upload_failure_preserves_session :
    ∀ (cfg : Config) (nowMs : Nat) (o : Oracles) (s : SessionState)
      (u u' : Except Unit Unit),
      (mainStep cfg nowMs { o with uploadResult := u } s).1
        = (mainStep cfg nowMs { o with uploadResult := u' } s).1 := by
  intro cfg nowMs o s u u'
  cases o with
  | mk lr cr gr ne ur =>
    simp only [mainStep]
    by_cases hv : hasValidAuthentication s.authTicket nowMs
    · simp only [hv, if_true]
      rcases hg : getGlucoseMeasurements cfg.linkUpConnection cr gr s with ⟨s2, calls2, og⟩
      cases og <;> simp [hg]
    · simp only [hv, Bool.false_eq_true, if_false]
      rcases hl : login (deleteAccountId (deleteAuthTicket s)) lr with ⟨s1, ot⟩
      cases ot with
      | none => simp [hl]
      | some t =>
        simp only [hl]
        rcases hg : getGlucoseMeasurements cfg.linkUpConnection cr gr
            (updateAuthTicket s1 t) with ⟨s2, calls2, og⟩
        cases og <;> simp [hg]

/-- When the connections request succeeds but selection fails, a
cycle's call list is one of: just the login attempt, just the
connections call, or the two in order — never a graph or upload call. -/
theorem mainStep_calls_of_resolution_none
    (cfg : Config) (nowMs : Nat) (o : Oracles) (s : SessionState) (cd : List Connection)
    (hok : o.connectionsResponse = Except.ok cd)
    (hsel : selectConnection cd cfg.linkUpConnection = none) :
    (mainStep cfg nowMs o s).2 = [ApiCall.loginCall]
    ∨ (mainStep cfg nowMs o s).2 = [ApiCall.connectionsCall]
    ∨ (mainStep cfg nowMs o s).2 = [ApiCall.loginCall, ApiCall.connectionsCall] := by
  simp only [mainStep]
  by_cases hv : hasValidAuthentication s.authTicket nowMs
  · simp [hv, getGlucoseMeasurements, getLibreLinkUpConnection, hok, hsel]
  · simp only [hv, Bool.false_eq_true, if_false]
    rcases hl : login (deleteAccountId (deleteAuthTicket s)) o.loginResponse with ⟨s1, ot⟩
    cases ot with
    | none => simp [hl]
    | some t => simp [hl, getGlucoseMeasurements, getLibreLinkUpConnection, hok, hsel]

/-- Claim C3: the connection-resolution policy: an empty list fails; a
single connection is auto-selected regardless of configuration; with
several connections and a falsy configured id the first is selected;
with a configured id the exact `patientId` match is selected or
resolution fails, and on failure no graph fetch and no upload happens
in that cycle. -/
theorem c3_connection_resolution_policy :
    (∀ lc : Option String, selectConnection [] lc = none)
    ∧ (∀ (c : Connection) (lc : Option String), selectConnection [c] lc = some c.patientId)
    ∧ (∀ (c0 c1 : Connection) (rest : List Connection) (lc : Option String),
        optFalsy lc = true → selectConnection (c0 :: c1 :: rest) lc = some c0.patientId)
    ∧ (∀ (c0 c1 : Connection) (rest : List Connection) (pid : String), pid ≠ "" →
        selectConnection (c0 :: c1 :: rest) (some pid)
          = ((c0 :: c1 :: rest).find? (fun e => some e.patientId == some pid)).map
              Connection.patientId
        ∧ ∀ conn,
            (c0 :: c1 :: rest).find? (fun e => some e.patientId == some pid) = some conn →
            conn.patientId = pid)
    ∧ (∀ (cfg : Config) (nowMs : Nat) (o : Oracles) (s : SessionState)
        (cd : List Connection),
        o.connectionsResponse = Except.ok cd →
        selectConnection cd cfg.linkUpConnection = none →
        ApiCall.graphCall ∉ (mainStep cfg nowMs o s).2
        ∧ ∀ es, ApiCall.uploadCall es ∉ (mainStep cfg nowMs o s).2) := by
  refine ⟨fun lc => rfl, fun c lc => rfl, ?_, ?_, ?_⟩
  · intro c0 c1 rest lc h
    simp [selectConnection, h]
  · intro c0 c1 rest pid hpid
    have hfal : optFalsy (some pid) = false :=
      Bool.eq_false_iff.mpr (fun h => hpid ((String.isEmpty_iff pid).mp h))
    constructor
    · simp only [selectConnection, hfal, Bool.false_eq_true, if_false]
      rcases hf : (c0 :: c1 :: rest).find? (fun entry => entry.patientId == pid)
        with _ | conn <;> simp [hf]
    · intro conn hf
      have := List.find?_some hf
      simpa using this
  · intro cfg nowMs o s cd hok hsel
    rcases mainStep_calls_of_resolution_none cfg nowMs o s cd hok hsel with h | h | h <;>
      simp [h]

/-- Witness for C3 at concrete connection lists: several connections
with a falsy id select the first; with an unmatched configured id
resolution fails and a cycle starting from a valid session makes no
graph or upload call. -/
theorem c3_connection_resolution_policy_witness :
    selectConnection [⟨"p1", "a", "b"⟩, ⟨"p2", "c", "d"⟩] (some "")
      = some (Connection.patientId ⟨"p1", "a", "b"⟩)
    ∧ selectConnection [⟨"p1", "a", "b"⟩, ⟨"p2", "c", "d"⟩] (some "p2")
      = (([⟨"p1", "a", "b"⟩, ⟨"p2", "c", "d"⟩] : List Connection).find?
          (fun e => some e.patientId == some "p2")).map Connection.patientId
    ∧ ApiCall.graphCall ∉
        (mainStep ⟨false, some "zz"⟩ 1000
          ⟨Except.error (), Except.ok [⟨"p1", "a", "b"⟩, ⟨"p2", "c", "d"⟩],
            Except.error (), none, Except.ok ()⟩
          ⟨⟨60, some 99, "tok"⟩, "acct"⟩).2 :=
  ⟨c3_connection_resolution_policy.2.2.1 ⟨"p1", "a", "b"⟩ ⟨"p2", "c", "d"⟩ [] (some "") rfl,
   (c3_connection_resolution_policy.2.2.2.1 ⟨"p1", "a", "b"⟩ ⟨"p2", "c", "d"⟩ [] "p2"
      (by decide)).1,
   (c3_connection_resolution_policy.2.2.2.2 ⟨false, some "zz"⟩ 1000
      ⟨Except.error (), Except.ok [⟨"p1", "a", "b"⟩, ⟨"p2", "c", "d"⟩],
        Except.error (), none, Except.ok ()⟩
      ⟨⟨60, some 99, "tok"⟩, "acct"⟩
      [⟨"p1", "a", "b"⟩, ⟨"p2", "c", "d"⟩] rfl (by decide)).1⟩

/-- Clearing the ticket and then the account id yields the fully
cleared cache, whatever the starting state. -/
theorem deleteBoth_eq_cleared (s : SessionState) :
    deleteAccountId (deleteAuthTicket s) = clearedState := rfl

/-- The cleared cache never passes the validity check. -/
theorem cleared_never_valid (t : Nat) :
    hasValidAuthentication clearedState.authTicket t = false := by
  simp [hasValidAuthentication, clearedState]

/-- Claim C4 counterexample: with a live session (non-empty token and
account id, unexpired ticket) and an empty connection list, resolution
returns no patient and the cycle ends — but the session cache is left
unchanged, not cleared, and the ticket still passes the validity check,
so the next cycle does not return to Unauthenticated. -/
theorem c4_resolution_failure_keeps_cache_counterexample :
    (getGlucoseMeasurements none (Except.ok []) (Except.ok ⟨⟨⟨150, 3, 101⟩⟩, []⟩)
        ⟨⟨3600, some 99999, "tok"⟩, "acct"⟩).2.2 = none
    ∧ (getGlucoseMeasurements none (Except.ok []) (Except.ok ⟨⟨⟨150, 3, 101⟩⟩, []⟩)
        ⟨⟨3600, some 99999, "tok"⟩, "acct"⟩).1
      = ⟨⟨3600, some 99999, "tok"⟩, "acct"⟩
    ∧ (⟨⟨3600, some 99999, "tok"⟩, "acct"⟩ : SessionState).authTicket.token ≠ ""
    ∧ (⟨⟨3600, some 99999, "tok"⟩, "acct"⟩ : SessionState).userId ≠ ""
    ∧ hasValidAuthentication (⟨⟨3600, some 99999, "tok"⟩, "acct"⟩ : SessionState).authTicket
        1000000 = true :=
  ⟨rfl, rfl, by decide, by decide, by decide⟩

/-- Claim C4 as amended: a thrown failure (network/API error) of the
connections request or the graph request clears the session cache,
forcing Unauthenticated next cycle, with no retry in the same cycle;
but resolution returning no patient (empty list or unmatched configured
id) ends the cycle with the session cache unchanged. -/
theorem c4_thrown_failures_clear_cache :
    ∀ (lc : Option String) (gr : Except Unit GraphData) (s : SessionState)
      (cd : List Connection),
      ((getGlucoseMeasurements lc (Except.error ()) gr s).1 = clearedState
        ∧ (getGlucoseMeasurements lc (Except.error ()) gr s).2.2 = none)
      ∧ (∀ pid, selectConnection cd lc = some pid →
          (getGlucoseMeasurements lc (Except.ok cd) (Except.error ()) s).1 = clearedState
          ∧ (getGlucoseMeasurements lc (Except.ok cd) (Except.error ()) s).2.2 = none)
      ∧ (selectConnection cd lc = none →
          (getGlucoseMeasurements lc (Except.ok cd) gr s).1 = s
          ∧ (getGlucoseMeasurements lc (Except.ok cd) gr s).2.2 = none)
      ∧ (∀ t, hasValidAuthentication clearedState.authTicket t = false) := by
  intro lc gr s cd
  refine ⟨⟨rfl, rfl⟩, fun pid hsel => ?_, fun hsel => ?_, cleared_never_valid⟩
  · constructor <;> simp [getGlucoseMeasurements, getLibreLinkUpConnection, hsel,
      deleteBoth_eq_cleared]
  · constructor <;> simp [getGlucoseMeasurements, getLibreLinkUpConnection, hsel]

/-- Witness for C4 as amended: a thrown graph request from a live
session with a matching connection clears the cache; an unmatched
configured id leaves it untouched. -/
theorem c4_thrown_failures_clear_cache_witness :
    (getGlucoseMeasurements (some "p1") (Except.ok [⟨"p1", "a", "b"⟩, ⟨"p2", "c", "d"⟩])
        (Except.error ()) ⟨⟨3600, some 99999, "tok"⟩, "acct"⟩).1 = clearedState
    ∧ (getGlucoseMeasurements (some "zz") (Except.ok [⟨"p1", "a", "b"⟩, ⟨"p2", "c", "d"⟩])
        (Except.ok ⟨⟨⟨150, 3, 101⟩⟩, []⟩) ⟨⟨3600, some 99999, "tok"⟩, "acct"⟩).1
      = ⟨⟨3600, some 99999, "tok"⟩, "acct"⟩ :=
  ⟨((c4_thrown_failures_clear_cache (some "p1") (Except.error ())
      ⟨⟨3600, some 99999, "tok"⟩, "acct"⟩
      [⟨"p1", "a", "b"⟩, ⟨"p2", "c", "d"⟩]).2.1 "p1" (by decide)).1,
   ((c4_thrown_failures_clear_cache (some "zz") (Except.ok ⟨⟨⟨150, 3, 101⟩⟩, []⟩)
      ⟨⟨3600, some 99999, "tok"⟩, "acct"⟩
      [⟨"p1", "a", "b"⟩, ⟨"p2", "c", "d"⟩]).2.2.1 (by decide)).1⟩

/-- A cycle ends in an authentication failure: the cached ticket was
invalid and the login attempt returned no ticket. -/
def cycleAuthFailure (nowMs : Nat) (o : Oracles) (s : SessionState) : Prop :=
  hasValidAuthentication s.authTicket nowMs = false
  ∧ (login (deleteAccountId (deleteAuthTicket s)) o.loginResponse).2 = none

/-- A cycle ends in a fetch failure: the authentication phase went
through, and then either the connections request or the graph request
(after a successful resolution) threw. -/
def cycleFetchFailure (cfg : Config) (nowMs : Nat) (o : Oracles) (s : SessionState) : Prop :=
  (hasValidAuthentication s.authTicket nowMs = true
    ∨ (login (deleteAccountId (deleteAuthTicket s)) o.loginResponse).2 ≠ none)
  ∧ (o.connectionsResponse = Except.error ()
    ∨ ((∃ cd pid, o.connectionsResponse = Except.ok cd
          ∧ selectConnection cd cfg.linkUpConnection = some pid)
        ∧ o.graphResponse = Except.error ()))

/-- A thrown connections or graph request leaves the measurement
fetcher with a cleared cache and no data, from any state. -/
theorem getGlucose_fst_of_thrown (lc : Option String)
    (cr : Except Unit (List Connection)) (gr : Except Unit GraphData) (s : SessionState)
    (h : cr = Except.error ()
      ∨ (∃ cd pid, cr = Except.ok cd ∧ selectConnection cd lc = some pid)
        ∧ gr = Except.error ()) :
    (getGlucoseMeasurements lc cr gr s).1 = clearedState := by
  rcases h with h | ⟨⟨cd, pid, hok, hsel⟩, hge⟩ <;>
    first
    | (simp [h, getGlucoseMeasurements, getLibreLinkUpConnection]
       exact deleteBoth_eq_cleared s)
    | (simp [hok, hge, getGlucoseMeasurements, getLibreLinkUpConnection, hsel]
       exact deleteBoth_eq_cleared s)

/-- Every cycle starting from the cleared cache issues the login
request first, before any other API call. -/
theorem mainStep_from_cleared_starts_with_login (cfg : Config) (nowMs : Nat) (o : Oracles) :
    ((mainStep cfg nowMs o clearedState).2).head? = some ApiCall.loginCall := by
  simp only [mainStep, cleared_never_valid, Bool.false_eq_true, if_false]
  rcases hl : login (deleteAccountId (deleteAuthTicket clearedState)) o.loginResponse
    with ⟨s1, ot⟩
  cases ot with
  | none => simp
  | some t =>
    rcases hg : getGlucoseMeasurements cfg.linkUpConnection o.connectionsResponse
        o.graphResponse (updateAuthTicket s1 t) with ⟨s2, calls2, og⟩
    cases og <;> simp [hg]

/-- A cycle starting from the cleared cache whose login fails makes no
API call other than the login attempt. -/
theorem mainStep_from_cleared_login_failed (cfg : Config) (nowMs : Nat) (o : Oracles)
    (h : (login clearedState o.loginResponse).2 = none) :
    (mainStep cfg nowMs o clearedState).2 = [ApiCall.loginCall] := by
  simp only [mainStep, cleared_never_valid, Bool.false_eq_true, if_false]
  rw [deleteBoth_eq_cleared]
  rcases hl : login clearedState o.loginResponse with ⟨s1, ot⟩
  rw [hl] at h
  cases ot with
  | none => simp
  | some t => simp at h

/-- Claim C5: after a cycle ending in an authentication or fetch
failure the session cache is fully cleared, the validity check fails at
every time, and any subsequent cycle performs a fresh login before any
other API call — and stops after the login attempt when that login
fails. -/
theorem c5_failure_forces_fresh_login :
    ∀ (cfg : Config) (nowMs : Nat) (o : Oracles) (s : SessionState),
      cycleAuthFailure nowMs o s ∨ cycleFetchFailure cfg nowMs o s →
      (mainStep cfg nowMs o s).1 = clearedState
      ∧ (∀ t, hasValidAuthentication clearedState.authTicket t = false)
      ∧ (∀ (cfg' : Config) (nowMs' : Nat) (o' : Oracles),
          ((mainStep cfg' nowMs' o' clearedState).2).head? = some ApiCall.loginCall)
      ∧ (∀ (cfg' : Config) (nowMs' : Nat) (o' : Oracles),
          (login clearedState o'.loginResponse).2 = none →
          (mainStep cfg' nowMs' o' clearedState).2 = [ApiCall.loginCall]) := by
  intro cfg nowMs o s h
  refine ⟨?_, cleared_never_valid,
    fun cfg' nowMs' o' => mainStep_from_cleared_starts_with_login cfg' nowMs' o',
    fun cfg' nowMs' o' h' => mainStep_from_cleared_login_failed cfg' nowMs' o' h'⟩
  rcases h with ⟨hv, hl⟩ | ⟨hauth, hfetch⟩
  · simp only [mainStep, hv, Bool.false_eq_true, if_false]
    rcases hlog : login (deleteAccountId (deleteAuthTicket s)) o.loginResponse with ⟨s1, ot⟩
    rw [hlog] at hl
    cases ot with
    | none => simp [deleteBoth_eq_cleared]
    | some t => simp at hl
  · by_cases hv : hasValidAuthentication s.authTicket nowMs
    · simp only [mainStep, hv, if_true]
      have hfst := getGlucose_fst_of_thrown cfg.linkUpConnection o.connectionsResponse
        o.graphResponse s hfetch
      rcases hg : getGlucoseMeasurements cfg.linkUpConnection o.connectionsResponse
          o.graphResponse s with ⟨s2, calls2, og⟩
      rw [hg] at hfst
      cases og <;> simpa [hg] using hfst
    · rcases hauth with hauth | hauth
      · exact absurd hauth hv
      · simp only [mainStep, hv, Bool.false_eq_true, if_false]
        rcases hlog : login (deleteAccountId (deleteAuthTicket s)) o.loginResponse
          with ⟨s1, ot⟩
        rw [hlog] at hauth
        cases ot with
        | none => exact absurd rfl hauth
        | some t =>
          have hfst := getGlucose_fst_of_thrown cfg.linkUpConnection o.connectionsResponse
            o.graphResponse (updateAuthTicket s1 t) hfetch
          rcases hg : getGlucoseMeasurements cfg.linkUpConnection o.connectionsResponse
              o.graphResponse (updateAuthTicket s1 t) with ⟨s2, calls2, og⟩
          rw [hg] at hfst
          cases og <;> simpa [hg] using hfst

/-- Witness for C5: a concrete cycle whose graph request throws, from a
live session, ends with the cleared cache, and the next cycle's first
call is the login request. -/
theorem c5_failure_forces_fresh_login_witness :
    (mainStep ⟨false, none⟩ 1000000
        ⟨Except.error (), Except.ok [⟨"p1", "a", "b"⟩], Except.error (), none, Except.ok ()⟩
        ⟨⟨3600, some 99999, "tok"⟩, "acct"⟩).1 = clearedState
    ∧ (∀ t, hasValidAuthentication clearedState.authTicket t = false)
    ∧ (∀ (cfg' : Config) (nowMs' : Nat) (o' : Oracles),
        ((mainStep cfg' nowMs' o' clearedState).2).head? = some ApiCall.loginCall)
    ∧ (∀ (cfg' : Config) (nowMs' : Nat) (o' : Oracles),
        (login clearedState o'.loginResponse).2 = none →
        (mainStep cfg' nowMs' o' clearedState).2 = [ApiCall.loginCall]) :=
  c5_failure_forces_fresh_login ⟨false, none⟩ 1000000
    ⟨Except.error (), Except.ok [⟨"p1", "a", "b"⟩], Except.error (), none, Except.ok ()⟩
    ⟨⟨3600, some 99999, "tok"⟩, "acct"⟩
    (Or.inr ⟨Or.inl (by decide),
      Or.inr ⟨⟨[⟨"p1", "a", "b"⟩], "p1", rfl, rfl⟩, rfl⟩⟩)

end NSLLU
